import Mathlib

/-!
Verification of the routing-and-retrieval orchestration engine of a travel
customer-service system, shallowly embedded from the Python sources under
`backend/app/`.  Strings are modelled as `List Char` where substring search
matters; Python floats are modelled as exact rationals `ℚ`; external services
(classification, embedding, generation, vector store) are modelled as explicit
oracle parameters.
-/

namespace TravelAgency

/-! ## String helpers (Python `str.lower`, `in`, `str.split`) -/

/-- The Python per-character lower-casing of a string, on the character list. -/
def lowerChars (s : List Char) : List Char := s.map Char.toLower

/-- `prefixMatch needle hay` : does `hay` start with `needle`? -/
def prefixMatch : List Char → List Char → Bool
  | [], _ => true
  | _ :: _, [] => false
  | c :: cs, d :: ds => c == d && prefixMatch cs ds

/-- The Python `needle in hay` substring test on character lists. -/
def occursIn (needle : List Char) : List Char → Bool
  | [] => needle.isEmpty
  | d :: ds => prefixMatch needle (d :: ds) || occursIn needle ds

/-- Auxiliary accumulator for whitespace splitting. -/
def splitWsAux : List Char → List Char → List (List Char)
  | [], acc => if acc.isEmpty then [] else [acc.reverse]
  | c :: cs, acc =>
    if c.isWhitespace then
      (if acc.isEmpty then [] else [acc.reverse]) ++ splitWsAux cs []
    else
      splitWsAux cs (c :: acc)

/-- The Python `str.split()` with no argument: split on runs of whitespace,
dropping empty tokens. -/
def splitWs (s : List Char) : List (List Char) := splitWsAux s []

/-! ## Data model

`app/models/state.py` (defining `AgentRoutingDecision`) is not in the source
tree; the structure below is modelled from the `RoutingDecision` of the spec. -/

/-- Modelled from the spec: `RoutingDecision` of §3 — the file
`app/models/state.py` defining `AgentRoutingDecision` is missing from the
sources; per the spec it carries a category (`agent_type`), a confidence and a
reasoning text.  The category is kept as a string so that the coercion-to-known
values performed by the router is an actual proof obligation. -/
structure AgentRoutingDecision where
  agent_type : String
  confidence : ℚ
  reasoning : String
deriving DecidableEq

/-- The three known agent categories (`orchestrator.py:91`). -/
def knownAgentTypes : List String := ["travel_support", "booking_payments", "policy"]

/-! ## Query Router fallback (`orchestrator.py:119-161`) -/

/-- Booking keyword set (`orchestrator.py:132-135`). -/
def booking_keywords : List (List Char) :=
  [("price").data, ("cost").data, ("payment").data, ("invoice").data,
   ("booking").data, ("package").data, ("how much").data, ("pricing").data,
   ("pay").data, ("refund").data, ("charge").data]

/-- Policy keyword set (`orchestrator.py:136-139`). -/
def policy_keywords : List (List Char) :=
  [("policy").data, ("cancel").data, ("cancellation").data, ("terms").data,
   ("insurance").data, ("baggage").data, ("refund policy").data, ("tos").data,
   ("terms of service").data]

/-- `booking_score` of `_fallback_routing` (`orchestrator.py:141`):
`sum(1 for kw in booking_keywords if kw in query_lower)`. -/
def booking_score (query : String) : ℕ :=
  List.countP (fun kw => occursIn kw (lowerChars query.data)) booking_keywords

/-- `policy_score` of `_fallback_routing` (`orchestrator.py:142`). -/
def policy_score (query : String) : ℕ :=
  List.countP (fun kw => occursIn kw (lowerChars query.data)) policy_keywords

/-- `OrchestratorAgent._fallback_routing` (`orchestrator.py:119-161`). -/
def fallback_routing (query : String) : AgentRoutingDecision :=
  if booking_score query > policy_score query ∧ booking_score query > 0 then
    { agent_type := "booking_payments"
      confidence := min (8/10 : ℚ) (1/2 + booking_score query * (1/10))
      reasoning := "Matched booking/payment keywords" }
  else if policy_score query > 0 then
    { agent_type := "policy"
      confidence := min (8/10 : ℚ) (1/2 + policy_score query * (1/10))
      reasoning := "Matched policy keywords" }
  else
    { agent_type := "travel_support"
      confidence := 6/10
      reasoning := "Default fallback to travel support" }

/-! Spec-side renderings of the fallback scores (C1 compares these with the
source-side computation). -/

/-- Spec-side wording: the number of booking-set members that are substrings of
the lower-cased query. -/
def specBookingScore (query : String) : ℕ :=
  (booking_keywords.filter (fun kw => occursIn kw (lowerChars query.data))).length

/-- Spec-side wording: the number of policy-set members that are substrings of
the lower-cased query. -/
def specPolicyScore (query : String) : ℕ :=
  (policy_keywords.filter (fun kw => occursIn kw (lowerChars query.data))).length

/-- Spec-side wording for the fallback decision (§4.1, step 4), written with
the spec-side scores and the `0.5 + 0.1·score` orientation of the spec. -/
def specFallbackDecision (query : String) : AgentRoutingDecision :=
  if specBookingScore query > specPolicyScore query ∧ specBookingScore query > 0 then
    { agent_type := "booking_payments"
      confidence := min (8/10 : ℚ) (1/2 + (1/10) * specBookingScore query)
      reasoning := "Matched booking/payment keywords" }
  else if specPolicyScore query > 0 then
    { agent_type := "policy"
      confidence := min (8/10 : ℚ) (1/2 + (1/10) * specPolicyScore query)
      reasoning := "Matched policy keywords" }
  else
    { agent_type := "travel_support"
      confidence := 6/10
      reasoning := "Default fallback to travel support" }

/-! ## Query Router primary path (`orchestrator.py:40-117`)

The external classifier (Bedrock call plus JSON extraction) is opaque; its
observable effect on `route_query` is either an exception / JSON parse failure
(any of which lands in the `except` clauses) or a successfully parsed mapping
whose `agent_type`, `confidence` and `reasoning` fields may each be absent. -/

/-- Observable outcome of the external classification call together with the
JSON extraction step of `route_query`: `failure` covers provider exceptions,
malformed or absent JSON and any exception raised while reading the parsed
fields; `parsed` carries the three optional fields of the parsed mapping. -/
inductive ClassifierOutcome where
  | failure
  | parsed (agent_type : Option String) (confidence : Option ℚ) (reasoning : Option String)

/-- `OrchestratorAgent.route_query` (`orchestrator.py:40-117`): validate the
parsed category against the known list (substituting `travel_support`), clamp
the confidence to `[0,1]`, and fall back to keyword routing on any failure. -/
def route_query (outcome : ClassifierOutcome) (query : String) : AgentRoutingDecision :=
  match outcome with
  | .failure => fallback_routing query
  | .parsed agentType? conf? reasoning? =>
    { agent_type :=
        if agentType?.getD "travel_support" ∈ knownAgentTypes then
          agentType?.getD "travel_support"
        else "travel_support"
      confidence := max 0 (min 1 (conf?.getD (7/10)))
      reasoning := reasoning?.getD "No reasoning provided" }

/-- The fallback decision always has confidence in `[0,1]` and a known
category. -/
lemma fallback_routing_bounds (q : String) :
    0 ≤ (fallback_routing q).confidence ∧ (fallback_routing q).confidence ≤ 1 ∧
    (fallback_routing q).agent_type ∈ knownAgentTypes := by
  unfold fallback_routing
  split_ifs <;>
    refine ⟨?_, ?_, by simp [knownAgentTypes]⟩ <;>
    simp only []
  · exact le_min (by norm_num) (by positivity)
  · exact le_trans (min_le_left _ _) (by norm_num)
  · exact le_min (by norm_num) (by positivity)
  · exact le_trans (min_le_left _ _) (by norm_num)
  · norm_num
  · norm_num

/-! ## Static Document Cache (`retrieval/cag.py`)

The filesystem read performed by `load_documents` is external; its result (the
cleaned documents of the data directory) is held in the `corpus` field of the
state, and an instrumentation counter `loadCalls` records how many times the
load has been performed. -/

/-- A cached static document (already cleaned of metadata markers). -/
abbrev Doc := List Char

/-- State of a `CAGRetriever` instance: the documents a filesystem load would
return, the `cached_documents` mapping (`cag.py:32`), and a counter of
`load_documents` calls used to observe exactly-once loading. -/
structure CAGState where
  corpus : List Doc
  cached_documents : List (String × List Doc)
  loadCalls : ℕ
deriving DecidableEq

/-- `CAGRetriever.load_documents` (`cag.py:35-69`): performs the external read,
returning the corpus; instrumented with the call counter. -/
def load_documents (s : CAGState) : CAGState × List Doc :=
  ({ s with loadCalls := s.loadCalls + 1 }, s.corpus)

/-- `CAGRetriever.cache_documents` (`cag.py:71-81`): load and store the
documents only when the key is absent. -/
def cache_documents (s : CAGState) (agent_type : String) : CAGState :=
  match s.cached_documents.lookup agent_type with
  | some _ => s
  | none =>
    let loaded := load_documents s
    { loaded.1 with cached_documents := (agent_type, loaded.2) :: loaded.1.cached_documents }

/-- `CAGRetriever.get_cached_documents` (`cag.py:83-96`): populate first when
absent, then return the cached entry (empty when still absent). -/
def get_cached_documents (s : CAGState) (agent_type : String) : CAGState × List Doc :=
  let s1 := if (s.cached_documents.lookup agent_type).isSome then s
            else cache_documents s agent_type
  (s1, (s1.cached_documents.lookup agent_type).getD [])

/-- The pure matching core of `CAGRetriever.search_cached` (`cag.py:115-123`):
split the query on whitespace (case folded) and keep every document containing
at least one term as a substring. -/
def keywordSearch (query : List Char) (documents : List Doc) : List Doc :=
  documents.filter (fun doc =>
    (splitWs (lowerChars query)).any (fun term => occursIn term (lowerChars doc)))

/-- `CAGRetriever.search_cached` (`cag.py:98-126`) with the default
`case_sensitive=False`. -/
def search_cached (s : CAGState) (query : List Char) (agent_type : String) :
    CAGState × List Doc :=
  let got := get_cached_documents s agent_type
  (got.1, keywordSearch query got.2)

/-! ## Hybrid Retriever (`retrieval/hybrid.py`) -/

/-- A retrieved chunk: content, metadata, optional vector-store distance. -/
structure Chunk where
  content : Doc
  metadata : List (String × String)
  distance : Option ℚ := none
deriving DecidableEq

/-- State of a `HybridRetriever` instance (`hybrid.py:34-43`). -/
structure HybridState where
  cag : CAGState
  static_policy_cache : List Doc
  cache_initialized : Bool
deriving DecidableEq

/-- The relevance keyword set of `initialize_cache` (`hybrid.py:60`). -/
def relevance_keywords : List (List Char) :=
  [("payment").data, ("cancellation").data, ("refund").data,
   ("booking").data, ("terms").data]

/-- `HybridRetriever.initialize_cache` (`hybrid.py:45-69`).  Its `agent_type`
parameter is unused by the body (the cache is always built for `"policy"`), so
it is dropped here. -/
def initialize_cache (h : HybridState) : HybridState :=
  if h.cache_initialized then h
  else
    let cag1 := cache_documents h.cag "policy"
    let got := get_cached_documents cag1 "policy"
    let relevant_policies := got.2.filter (fun doc =>
      relevance_keywords.any (fun kw => occursIn kw (lowerChars doc)))
    { cag := got.1, static_policy_cache := relevant_policies, cache_initialized := true }

/-- The static-source wrapping of `HybridRetriever.retrieve`
(`hybrid.py:122-129`). -/
def wrapStatic (doc : Doc) : Chunk :=
  { content := doc
    metadata := [("agent_type", "policy"), ("document_type", "static_policy"),
                 ("source", "cached")]
    distance := none }

/-- Result of a hybrid retrieval (`hybrid.py:94-97`). -/
structure HybridResults where
  dynamic : List Chunk
  static : List Chunk
deriving DecidableEq

/-- `HybridRetriever.retrieve` (`hybrid.py:71-134`).  The semantic retriever
is external: `dyn` is the chunk list its `retrieve` call returned (it returns
`[]` rather than raising on provider failure, `rag.py:100-102`). -/
def hybrid_retrieve (h : HybridState) (query : List Char) (dyn : List Chunk)
    (include_static : Bool) : HybridState × HybridResults :=
  let h1 := if h.cache_initialized then h else initialize_cache h
  if include_static then
    let searched := search_cached h1.cag query "policy"
    ({ h1 with cag := searched.1 },
     { dynamic := dyn, static := (searched.2.take 3).map wrapStatic })
  else
    (h1, { dynamic := dyn, static := [] })

/-- A fresh `CAGRetriever` instance over a given corpus (`cag.py:19-33`). -/
def freshCAG (corpus : List Doc) : CAGState :=
  { corpus := corpus, cached_documents := [], loadCalls := 0 }

/-- A fresh `HybridRetriever` instance (`hybrid.py:22-43`). -/
def freshHybrid (corpus : List Doc) : HybridState :=
  { cag := freshCAG corpus, static_policy_cache := [], cache_initialized := false }

/-- Spec-claimed static part for C3: the first 3 matches of the keyword search
applied to the derived filtered subset of the policy cache (the documents
containing any relevance keyword). -/
def specStaticFromSubset (cache : List Doc) (query : List Char) : List Chunk :=
  ((keywordSearch query (cache.filter (fun doc =>
      relevance_keywords.any (fun kw => occursIn kw (lowerChars doc))))).take 3).map
    wrapStatic

/-- The amended static part: the first 3 matches of the keyword search applied
to the full policy cache. -/
def specStaticFromFullCache (cache : List Doc) (query : List Char) : List Chunk :=
  ((keywordSearch query cache).take 3).map wrapStatic

/-! ## Semantic Retriever scoring (`retrieval/rag.py:104-136`) -/

/-- A chunk with the `similarity` field attached by `retrieve_with_scores`
(`rag.py:133`). -/
structure ScoredChunk where
  chunk : Chunk
  similarity : ℚ
deriving DecidableEq

/-- The distance-to-similarity conversion of `retrieve_with_scores`
(`rag.py:131`): `1 - distance` when `distance ≤ 1`, else `0`. -/
def similarityOfDistance (distance : ℚ) : ℚ :=
  if distance ≤ 1 then 1 - distance else 0

/-- `RAGRetriever.retrieve_with_scores` (`rag.py:104-136`), as the pure
filter/derive step over the chunk list the underlying `retrieve` returned:
missing distances default to `1.0` (`rag.py:129`) and only chunks whose
similarity reaches the threshold are kept. -/
def retrieve_with_scores (documents : List Chunk) (score_threshold : ℚ) :
    List ScoredChunk :=
  documents.filterMap (fun doc =>
    let distance := doc.distance.getD 1
    let similarity := similarityOfDistance distance
    if score_threshold ≤ similarity then some ⟨doc, similarity⟩ else none)

/-- Spec-side similarity of §4.2: `max(0, 1 − distance)` when `distance ≤ 1`,
else `0`. -/
def specSimilarity (distance : ℚ) : ℚ :=
  if distance ≤ 1 then max 0 (1 - distance) else 0

/-! ## Orchestration state machine (`chains/graph.py`) and agent prompts -/

/-- `MessageRole` (`models/schemas.py`). -/
inductive MessageRole where
  | user
  | assistant
  | system
deriving DecidableEq

/-- `Message` (`models/schemas.py`). -/
structure Message where
  role : MessageRole
  content : String
  timestamp : Option String := none
deriving DecidableEq

/-- `GraphState` (`graph.py:17-30`), restricted to the fields the modelled
nodes read or write (`retrieved_context`, `cached_data` and `session_id` are
never touched by any node). -/
structure GraphState where
  messages : List Message
  current_query : Option String := none
  routing_decision : Option AgentRoutingDecision := none
  current_agent : Option String := none
  response : Option String := none
deriving DecidableEq

/-- `entry_node` (`graph.py:51-81`): the most recent user-authored message
becomes the current query; with no user message the query is the empty text. -/
def entry_node (st : GraphState) : GraphState :=
  let user_messages := st.messages.filter (fun m => m.role == .user)
  match user_messages.getLast? with
  | some lastMsg => { st with current_query := some lastMsg.content }
  | none => { st with current_query := some "" }

/-- The truthiness test `if not query` of the category nodes
(`graph.py:152,205,258`): holds for an absent or empty query. -/
def queryMissing : Option String → Bool
  | none => true
  | some s => s.isEmpty

/-- Observable outcome of the external generation call (`llm.invoke`) inside
an agent: either a raised exception or the returned text (an absent/`None`
content is the empty text, `travel_support.py:116`). -/
inductive GenOutcome where
  | failure
  | success (text : String)
deriving DecidableEq

/-- The short-circuit apology of every category node (`graph.py:155`, `208`,
`261`). -/
def apologyCannotProcess : String :=
  "I apologize, but I couldn\x27t process your query."

/-- The empty-output apology shared by the three agents
(`travel_support.py:121`, `policy.py:116`, `booking.py:140`). -/
def apologyEmptyGeneration : String :=
  "I apologize, but I couldn\x27t generate a response. Please try again or contact customer support."

/-- The exception apology shared by the three agents (`travel_support.py:127`,
`policy.py:122`, `booking.py:146`). -/
def apologyGenerationError : String :=
  "I apologize, but I encountered an error while generating a response. Please try again or contact customer support."

/-- The generation tail shared verbatim by the three agents
(`travel_support.py:115-127`, `policy.py:110-122`, `booking.py:134-146`):
strip the reply; on empty or whitespace-only output return the fixed
empty-output apology; on a raised exception return the fixed error apology
(the exception is caught, never propagated). -/
def llmResponseText (gen : GenOutcome) : String :=
  match gen with
  | .failure => apologyGenerationError
  | .success t => if t.trim.isEmpty then apologyEmptyGeneration else t.trim

/-- The conversation-window construction shared verbatim by the three agents
(`travel_support.py:104-113`, `policy.py:100-108`, `booking.py:124-132`):
take `conversation_history[-4:]` and keep the user-authored entries. -/
def historyUserContents (conversation_history : List Message) : List String :=
  (((conversation_history.drop (conversation_history.length - 4))).filter
    (fun m => m.role == .user)).map (fun m => m.content)

/-- The contents of the human messages of an agent prompt: the conversation
window followed by the final user prompt built from context and query. -/
def agentPromptHumanContents (conversation_history : List Message)
    (user_prompt : String) : List String :=
  historyUserContents conversation_history ++ [user_prompt]

/-- Spec-claimed window for C4: the trailing window of at most the last 4
user-authored messages, taken over user messages only. -/
def specLast4UserContents (conversation_history : List Message) : List String :=
  let users := (conversation_history.filter (fun m => m.role == .user)).map
    (fun m => m.content)
  users.drop (users.length - 4)

/-- `travel_support_node` (`graph.py:142-193`): short-circuit with an apology
on a missing query; otherwise answer with the generation outcome text and
append it to the conversation as an assistant message.  The flags record
whether the Pure-RAG retrieval and the generation service were invoked. -/
def travel_support_node (gen : GenOutcome) (st : GraphState) :
    GraphState × Bool × Bool :=
  if queryMissing st.current_query then
    ({ st with response := some apologyCannotProcess }, false, false)
  else
    let response := llmResponseText gen
    ({ st with response := some response
               messages := st.messages ++ [{ role := .assistant, content := response }] },
     true, true)

/-- `booking_payments_node` (`graph.py:195-246`), same shape over the Hybrid
strategy. -/
def booking_payments_node (gen : GenOutcome) (st : GraphState) :
    GraphState × Bool × Bool :=
  if queryMissing st.current_query then
    ({ st with response := some apologyCannotProcess }, false, false)
  else
    let response := llmResponseText gen
    ({ st with response := some response
               messages := st.messages ++ [{ role := .assistant, content := response }] },
     true, true)

/-- `policy_node` (`graph.py:248-299`), same shape over the Pure-CAG
strategy. -/
def policy_node (gen : GenOutcome) (st : GraphState) :
    GraphState × Bool × Bool :=
  if queryMissing st.current_query then
    ({ st with response := some apologyCannotProcess }, false, false)
  else
    let response := llmResponseText gen
    ({ st with response := some response
               messages := st.messages ++ [{ role := .assistant, content := response }] },
     true, true)

/-- Counterexample for C4: in a conversation whose last four messages include
two assistant messages, the code window keeps only the user messages among the
last 4 messages (`u3`, `u4`), while the claimed window of the last 4
user-authored messages would be `u1`–`u4`. -/
theorem window_counterexample :
    agentPromptHumanContents
      [{ role := .user, content := "u1" }, { role := .user, content := "u2" },
       { role := .user, content := "u3" }, { role := .assistant, content := "a1" },
       { role := .assistant, content := "a2" }, { role := .user, content := "u4" }] "q"
    ≠ specLast4UserContents
      [{ role := .user, content := "u1" }, { role := .user, content := "u2" },
       { role := .user, content := "u3" }, { role := .assistant, content := "a1" },
       { role := .assistant, content := "a2" }, { role := .user, content := "u4" }]
      ++ ["q"] := by
  decide

/-- C4 amended: the conversation portion of every agent prompt consists of the
user-authored messages among the last 4 messages of the conversation — so
assistant messages do consume window slots — followed by the current query
prompt; the window never exceeds 4 messages. -/
theorem window_over_last_four_messages (h : List Message) (q : String) :
    agentPromptHumanContents h q =
      ((List.rtake h 4).filter (fun m => m.role == .user)).map
        (fun m => m.content) ++ [q] ∧
    agentPromptHumanContents h q =
      ((h.reverse.take 4).reverse.filter (fun m => m.role == .user)).map
        (fun m => m.content) ++ [q] ∧
    (historyUserContents h).length ≤ 4 := by
  have h1 : agentPromptHumanContents h q =
      ((List.rtake h 4).filter (fun m => m.role == .user)).map
        (fun m => m.content) ++ [q] := rfl
  refine ⟨h1, ?_, ?_⟩
  · rw [h1, List.rtake_eq_reverse_take_reverse]
  · unfold historyUserContents
    rw [List.length_map]
    calc ((h.drop (h.length - 4)).filter (fun m => m.role == .user)).length
        ≤ (h.drop (h.length - 4)).length := List.length_filter_le _ _
      _ = h.length - (h.length - 4) := List.length_drop _ _
      _ ≤ 4 := by omega

/-- C6: when the generation service raises or returns empty/whitespace-only
output, every category node answers with the corresponding fixed apology
string, completes without propagating an exception, and appends the resulting
text to the conversation as a new assistant message. -/
theorem generation_failure_never_escapes (gen : GenOutcome) (st : GraphState)
    (hq : queryMissing st.current_query = false)
    (hfail : gen = .failure ∨ ∃ t, gen = .success t ∧ t.trim.isEmpty = true) :
    (llmResponseText gen = apologyGenerationError ∨
      llmResponseText gen = apologyEmptyGeneration) ∧
    (travel_support_node gen st).1.response = some (llmResponseText gen) ∧
    (travel_support_node gen st).1.messages =
      st.messages ++ [{ role := .assistant, content := llmResponseText gen }] ∧
    (booking_payments_node gen st).1.response = some (llmResponseText gen) ∧
    (booking_payments_node gen st).1.messages =
      st.messages ++ [{ role := .assistant, content := llmResponseText gen }] ∧
    (policy_node gen st).1.response = some (llmResponseText gen) ∧
    (policy_node gen st).1.messages =
      st.messages ++ [{ role := .assistant, content := llmResponseText gen }] := by
  refine ⟨?_, ?_, ?_, ?_, ?_, ?_, ?_⟩
  · rcases hfail with hf | ⟨t, ht, he⟩
    · left
      rw [hf]
      rfl
    · right
      rw [ht]
      simp [llmResponseText, he]
  all_goals simp [travel_support_node, booking_payments_node, policy_node, hq]

/-- Witness for C6: a raised generation exception on a one-user-message state
yields the fixed error apology, appended as an assistant message. -/
theorem generation_failure_never_escapes_witness :
    (llmResponseText .failure = apologyGenerationError ∨
      llmResponseText .failure = apologyEmptyGeneration) ∧
    (travel_support_node .failure
        { messages := [{ role := .user, content := "hi" }],
          current_query := some "hi" }).1.response = some (llmResponseText .failure) ∧
    (travel_support_node .failure
        { messages := [{ role := .user, content := "hi" }],
          current_query := some "hi" }).1.messages =
      [{ role := .user, content := "hi" }] ++
        [{ role := .assistant, content := llmResponseText .failure }] ∧
    (booking_payments_node .failure
        { messages := [{ role := .user, content := "hi" }],
          current_query := some "hi" }).1.response = some (llmResponseText .failure) ∧
    (booking_payments_node .failure
        { messages := [{ role := .user, content := "hi" }],
          current_query := some "hi" }).1.messages =
      [{ role := .user, content := "hi" }] ++
        [{ role := .assistant, content := llmResponseText .failure }] ∧
    (policy_node .failure
        { messages := [{ role := .user, content := "hi" }],
          current_query := some "hi" }).1.response = some (llmResponseText .failure) ∧
    (policy_node .failure
        { messages := [{ role := .user, content := "hi" }],
          current_query := some "hi" }).1.messages =
      [{ role := .user, content := "hi" }] ++
        [{ role := .assistant, content := llmResponseText .failure }] :=
  generation_failure_never_escapes .failure
    { messages := [{ role := .user, content := "hi" }], current_query := some "hi" }
    (by decide) (Or.inl rfl)

/-- C9: with no user-authored message in the conversation, the entry node sets
the current query to the empty text, and every category node short-circuits to
the apology answer without invoking its retrieval strategy or the generation
service (the two booleans of the node output). -/
theorem no_user_message_short_circuit (st : GraphState)
    (h : st.messages.filter (fun m => m.role == .user) = []) :
    (entry_node st).current_query = some "" ∧
    ∀ gen : GenOutcome,
      (travel_support_node gen (entry_node st)).1.response = some apologyCannotProcess ∧
      (travel_support_node gen (entry_node st)).2 = (false, false) ∧
      (booking_payments_node gen (entry_node st)).1.response = some apologyCannotProcess ∧
      (booking_payments_node gen (entry_node st)).2 = (false, false) ∧
      (policy_node gen (entry_node st)).1.response = some apologyCannotProcess ∧
      (policy_node gen (entry_node st)).2 = (false, false) := by
  have hq : (entry_node st).current_query = some "" := by
    simp only [entry_node, h]
    rfl
  have hm : queryMissing (entry_node st).current_query = true := by
    rw [hq]
    rfl
  refine ⟨hq, fun gen => ?_⟩
  refine ⟨?_, ?_, ?_, ?_, ?_, ?_⟩ <;>
    simp [travel_support_node, booking_payments_node, policy_node, hm]

/-- Witness for C9: a conversation holding only an assistant message. -/
theorem no_user_message_short_circuit_witness :
    (entry_node { messages := [{ role := .assistant, content := "hello" }] }).current_query
      = some "" ∧
    (travel_support_node .failure
      (entry_node { messages := [{ role := .assistant, content := "hello" }] })).2
      = (false, false) :=
  ⟨(no_user_message_short_circuit
      { messages := [{ role := .assistant, content := "hello" }] } (by decide)).1,
   ((no_user_message_short_circuit
      { messages := [{ role := .assistant, content := "hello" }] } (by decide)).2
      .failure).2.1⟩

/-- C10: with an empty current query, every category node leaves the message
list untouched and places the apology only in the response field, while on a
non-missing query each node appends exactly one assistant message. -/
theorem empty_query_frame (st : GraphState) (gen : GenOutcome)
    (h : queryMissing st.current_query = true) :
    (travel_support_node gen st).1.messages = st.messages ∧
    (travel_support_node gen st).1.response = some apologyCannotProcess ∧
    (booking_payments_node gen st).1.messages = st.messages ∧
    (booking_payments_node gen st).1.response = some apologyCannotProcess ∧
    (policy_node gen st).1.messages = st.messages ∧
    (policy_node gen st).1.response = some apologyCannotProcess ∧
    (∀ st2 : GraphState, queryMissing st2.current_query = false →
      (travel_support_node gen st2).1.messages.length = st2.messages.length + 1 ∧
      (booking_payments_node gen st2).1.messages.length = st2.messages.length + 1 ∧
      (policy_node gen st2).1.messages.length = st2.messages.length + 1) := by
  refine ⟨?_, ?_, ?_, ?_, ?_, ?_, ?_⟩
  · simp [travel_support_node, h]
  · simp [travel_support_node, h]
  · simp [booking_payments_node, h]
  · simp [booking_payments_node, h]
  · simp [policy_node, h]
  · simp [policy_node, h]
  · intro st2 h2
    refine ⟨?_, ?_, ?_⟩ <;>
      simp [travel_support_node, booking_payments_node, policy_node, h2]

/-- Witness for C10: the empty-query state keeps its (empty) conversation; a
state with query `"x"` gains exactly one message. -/
theorem empty_query_frame_witness :
    (travel_support_node .failure
      { messages := [], current_query := some "" }).1.messages = [] ∧
    (travel_support_node .failure
      { messages := [], current_query := some "x" }).1.messages.length = 0 + 1 :=
  ⟨(empty_query_frame { messages := [], current_query := some "" } .failure
      (by decide)).1,
   by
    have hlen := ((empty_query_frame { messages := [], current_query := some "" } .failure
      (by decide)).2.2.2.2.2.2 { messages := [], current_query := some "x" }
      (by decide)).1
    simpa using hlen⟩

end TravelAgency

namespace TravelAgency

example : booking_score "cancel my policy" = 0 := by decide

example : policy_score "cancel my policy" = 2 := by decide

example : booking_score "How much does the Bali package cost?" = 3 := by decide

example : policy_score "How much does the Bali package cost?" = 0 := by decide

example : (fallback_routing "How much does the Bali package cost?").confidence = 8/10 := by
  have hb : booking_score "How much does the Bali package cost?" = 3 := by decide
  have hp : policy_score "How much does the Bali package cost?" = 0 := by decide
  simp [fallback_routing, hb, hp]
  norm_num

/-- C1: the deterministic keyword fallback scores each keyword set by the
number of members that are substrings of the lower-cased query and decides:
`booking_payments` with confidence `min(0.8, 0.5 + 0.1·booking_score)` on a
strict nonzero booking majority, else `policy` with
`min(0.8, 0.5 + 0.1·policy_score)` when the policy score is nonzero (equal
nonzero scores go to `policy`), else `travel_support` with confidence `0.6`. -/
theorem fallback_routing_matches_spec (q : String) :
    fallback_routing q = specFallbackDecision q ∧
    (booking_score q = policy_score q → 0 < policy_score q →
      (fallback_routing q).agent_type = "policy") := by
  have hb : booking_score q = specBookingScore q := by
    simp [booking_score, specBookingScore, List.countP_eq_length_filter]
  have hp : policy_score q = specPolicyScore q := by
    simp [policy_score, specPolicyScore, List.countP_eq_length_filter]
  constructor
  · unfold fallback_routing specFallbackDecision
    rw [hb, hp]
    split_ifs <;> simp [AgentRoutingDecision.mk.injEq] <;> ring_nf
  · intro he hpos
    unfold fallback_routing
    rw [he]
    simp [lt_irrefl, hpos]

/-- Witness for C1: `"refund terms"` scores 1–1; the tie goes to `policy`. -/
theorem fallback_routing_matches_spec_witness :
    booking_score "refund terms" = policy_score "refund terms" ∧
    0 < policy_score "refund terms" ∧
    (fallback_routing "refund terms").agent_type = "policy" :=
  ⟨by decide, by decide,
    (fallback_routing_matches_spec "refund terms").2 (by decide) (by decide)⟩

/-- C2: whatever the external classifier does — parses cleanly, returns an
unknown category or out-of-range confidence, returns malformed or absent JSON,
or raises — `route_query` returns a decision whose confidence lies in `[0,1]`
and whose category is one of the three known values; an unknown category is
coerced to `travel_support` before the decision is constructed. -/
theorem route_query_decision_valid (o : ClassifierOutcome) (q : String) :
    0 ≤ (route_query o q).confidence ∧ (route_query o q).confidence ≤ 1 ∧
    (route_query o q).agent_type ∈ knownAgentTypes ∧
    (∀ s c r, s ∉ knownAgentTypes →
      (route_query (.parsed (some s) c r) q).agent_type = "travel_support") := by
  have hfb := fallback_routing_bounds q
  refine ⟨?_, ?_, ?_, ?_⟩
  · cases o with
    | failure => exact hfb.1
    | parsed a c r => exact le_max_left _ _
  · cases o with
    | failure => exact hfb.2.1
    | parsed a c r => exact max_le (by norm_num) (min_le_left _ _)
  · cases o with
    | failure => exact hfb.2.2
    | parsed a c r =>
      simp only [route_query]
      split_ifs with h
      · exact h
      · simp [knownAgentTypes]
  · intro s c r hs
    simp only [route_query, Option.getD_some]
    rw [if_neg hs]

/-- Witness for C2: the unknown category `"weather"` with out-of-range
confidence `5` is coerced to `travel_support`. -/
theorem route_query_decision_valid_witness :
    (route_query (.parsed (some "weather") (some 5) none) "x").agent_type
      = "travel_support" :=
  (route_query_decision_valid (.parsed (some "weather") (some 5) none) "x").2.2.2
    "weather" (some 5) none (by decide)

/-- Counterexample for C5: on `"How much does the Bali package cost?"` the
fallback booking score is 3 (`cost`, `package`, `how much`), not 1, and the
confidence is `0.8`, not `0.6`. -/
theorem scenarioA_counterexample :
    ¬ (booking_score "How much does the Bali package cost?" = 1 ∧
       (fallback_routing "How much does the Bali package cost?").confidence = 6/10) := by
  intro h
  have h1 := h.1
  have : booking_score "How much does the Bali package cost?" = 3 := by decide
  omega

/-- Pointwise: the code similarity conversion agrees with the spec formula
`max(0, 1 − d)` for `d ≤ 1`, else `0`. -/
lemma similarityOfDistance_eq_spec (d : ℚ) :
    similarityOfDistance d = specSimilarity d := by
  unfold similarityOfDistance specSimilarity
  split_ifs with h
  · rw [max_eq_right]
    linarith
  · rfl

/-- C8: `retrieve_with_scores` keeps exactly the chunks whose similarity
reaches the threshold, where a missing distance counts as distance `1` and the
similarity of distance `d` is `1 − d` for `d ≤ 1` and `0` for `d > 1` — so
`0 ↦ 1`, `1 ↦ 0`, `1.5 ↦ 0`, never negative. -/
theorem retrieve_with_scores_spec (documents : List Chunk) (t : ℚ) :
    retrieve_with_scores documents t =
      (documents.filter (fun doc => t ≤ specSimilarity (doc.distance.getD 1))).map
        (fun doc => { chunk := doc, similarity := specSimilarity (doc.distance.getD 1) }) ∧
    (∀ d : ℚ, similarityOfDistance d = specSimilarity d) ∧
    similarityOfDistance 0 = 1 ∧
    similarityOfDistance 1 = 0 ∧
    similarityOfDistance (3/2) = 0 ∧
    (∀ d : ℚ, 0 ≤ similarityOfDistance d) ∧
    (∀ c : Chunk, c.distance = none → c.distance.getD 1 = 1) := by
  refine ⟨?_, similarityOfDistance_eq_spec,
    by norm_num [similarityOfDistance], by norm_num [similarityOfDistance],
    by norm_num [similarityOfDistance], ?_, ?_⟩
  · have hfun : (fun doc : Chunk =>
        let distance := doc.distance.getD 1
        let similarity := similarityOfDistance distance
        if t ≤ similarity then some (⟨doc, similarity⟩ : ScoredChunk) else none) =
      (fun doc : Chunk =>
        if t ≤ specSimilarity (doc.distance.getD 1) then
          some (⟨doc, specSimilarity (doc.distance.getD 1)⟩ : ScoredChunk) else none) := by
      funext doc
      simp [similarityOfDistance_eq_spec]
    simp only [retrieve_with_scores]
    rw [hfun]
    induction documents with
    | nil => rfl
    | cons d ds ih =>
      rw [List.filterMap_cons, List.filter_cons]
      by_cases h : t ≤ specSimilarity (d.distance.getD 1)
      · rw [if_pos h, ih]
        simp [h]
      · rw [if_neg h, ih]
        simp [h]
  · intro d
    unfold similarityOfDistance
    split_ifs with h
    · linarith
    · exact le_refl 0
  · intro c hc
    rw [hc]
    rfl

/-- C7: lazy cache initialization is exactly-once: a second
`cache_documents` call with the same category leaves the whole retriever state
(counter included) unchanged, and two successive Hybrid `initialize_cache`
calls on a fresh instance perform the underlying load exactly once. -/
theorem cache_exactly_once (s : CAGState) (a : String) (corpus : List Doc) :
    cache_documents (cache_documents s a) a = cache_documents s a ∧
    initialize_cache (initialize_cache (freshHybrid corpus)) =
      initialize_cache (freshHybrid corpus) ∧
    (initialize_cache (freshHybrid corpus)).cag.loadCalls = 1 := by
  have hidem : ∀ (s : CAGState) (a : String),
      cache_documents (cache_documents s a) a = cache_documents s a := by
    intro s a
    unfold cache_documents
    cases hl : s.cached_documents.lookup a with
    | some v => simp [hl]
    | none => simp [hl, load_documents, List.lookup]
  have hfresh : (initialize_cache (freshHybrid corpus)).cache_initialized = true := by
    simp [initialize_cache, freshHybrid, freshCAG]
  refine ⟨hidem s a, ?_, ?_⟩
  · rw [initialize_cache, hfresh]
    simp
  · simp [initialize_cache, freshHybrid, freshCAG, cache_documents,
      get_cached_documents, load_documents, List.lookup]

/-- Counterexample for C3: with the policy corpus consisting of the single
document `"xy weather"` (which contains no relevance keyword, so the derived
filtered subset is empty), the static part of a hybrid retrieval for
`"weather"` is nonempty — the code searches the full policy cache, not the
filtered subset the claim names. -/
theorem hybrid_static_counterexample :
    (hybrid_retrieve (freshHybrid [("xy weather").data]) (("weather").data) [] true).2.static
      ≠ specStaticFromSubset [("xy weather").data] (("weather").data) := by
  decide

/-- C3 amended: the static part of a Hybrid `retrieve` (when `include_static`
is true) equals the first 3 matches of the keyword search applied to the full
policy cache, each wrapped as a chunk whose metadata marks it as a
cached/static source. -/
theorem hybrid_static_from_full_cache (corpus : List Doc) (q : List Char)
    (dyn : List Chunk) :
    (hybrid_retrieve (freshHybrid corpus) q dyn true).2.static =
      specStaticFromFullCache corpus q ∧
    (hybrid_retrieve (freshHybrid corpus) q dyn true).2.dynamic = dyn := by
  constructor
  · simp [hybrid_retrieve, initialize_cache, freshHybrid, freshCAG,
      cache_documents, get_cached_documents, load_documents, search_cached,
      specStaticFromFullCache, List.lookup]
  · simp [hybrid_retrieve, initialize_cache, freshHybrid, freshCAG,
      cache_documents, get_cached_documents, load_documents, search_cached,
      List.lookup]

/-- C5 amended: with the classifier unavailable, the fallback on
`"How much does the Bali package cost?"` computes `booking_score = 3`
(`cost`, `package`, `how much`) and `policy_score = 0`, and returns
`booking_payments` with confidence `0.8`. -/
theorem scenarioA_amended :
    booking_score "How much does the Bali package cost?" = 3 ∧
    policy_score "How much does the Bali package cost?" = 0 ∧
    fallback_routing "How much does the Bali package cost?" =
      { agent_type := "booking_payments", confidence := 8/10
        reasoning := "Matched booking/payment keywords" } := by
  have hb : booking_score "How much does the Bali package cost?" = 3 := by decide
  have hp : policy_score "How much does the Bali package cost?" = 0 := by decide
  refine ⟨hb, hp, ?_⟩
  simp [fallback_routing, hb, hp, AgentRoutingDecision.mk.injEq]
  norm_num

end TravelAgency
